import Mathlib

/-!
Verification of the NMAP-AI validator pipeline (`src/agents/validator/`).

Shallow embedding conventions:
* Python strings are modelled as `List Char` (`Str`); string literals are
  written `"...".data`.
* Python floats in the scoring code are modelled as exact rationals `ℚ`
  (all constants involved are small decimal fractions and every comparison
  in the claims is far from a representation boundary).
* Python dicts returned by validator callbacks are modelled as structures
  whose fields are `Option`-valued: `none` models an absent key, so that
  `d.get(k, default)` becomes `field.getD default`.
* The knowledge-graph client is absent (`kg_client=None`, import failed):
  every function is embedded in its fallback mode, which is the mode all
  of the claims are about.
* The regular expressions of the source are embedded as direct scanning
  functions; for every pattern appearing in the source the character
  classes of adjacent quantified subpatterns are disjoint, so the
  backtracking semantics coincide with maximal-munch scanning, which is
  what the definitions below implement.
-/

set_option maxRecDepth 8192

abbrev Str := List Char

/-- `needle.isPrefixOfChars hay` : list-of-chars prefix test (Python `startswith`). -/
def isPrefixOfChars : Str → Str → Bool
  | [], _ => true
  | _ :: _, [] => false
  | a :: as, b :: bs => a == b && isPrefixOfChars as bs

/-- Python substring containment `needle in hay`. -/
def isSubstr (needle : Str) : Str → Bool
  | [] => needle.isEmpty
  | c :: rest => isPrefixOfChars needle (c :: rest) || isSubstr needle rest

/-- Python `str.lower()` (ASCII). -/
def pyLower (s : Str) : Str := s.map Char.toLower

/-- Auxiliary for `pySplit`, carrying the current (reversed) token. -/
def pySplitAux : Str → Str → List Str
  | [], acc => if acc.isEmpty then [] else [acc.reverse]
  | c :: cs, acc =>
    if c.isWhitespace then
      if acc.isEmpty then pySplitAux cs [] else acc.reverse :: pySplitAux cs []
    else pySplitAux cs (c :: acc)

/-- Python `str.split()` with no argument: split on whitespace runs, no empty tokens. -/
def pySplit (s : Str) : List Str := pySplitAux s []

/-- Python `str.strip()`. -/
def pyStrip (s : Str) : Str :=
  ((s.dropWhile Char.isWhitespace).reverse.dropWhile Char.isWhitespace).reverse

/-- Auxiliary for `splitOnChar`, carrying the current (reversed) chunk. -/
def splitOnCharAux (sep : Char) : Str → Str → List Str
  | [], acc => [acc.reverse]
  | c :: cs, acc =>
    if c == sep then acc.reverse :: splitOnCharAux sep cs []
    else splitOnCharAux sep cs (c :: acc)

/-- Python `str.split(sep)` for a one-character separator (keeps empty chunks). -/
def splitOnChar (sep : Char) (s : Str) : List Str := splitOnCharAux sep s []

/-- Python `' '.join(parts)`. -/
def joinSpace (parts : List Str) : Str := List.intercalate [' '] parts

/-- Python `', '.join(parts)`. -/
def joinCommaSpace (parts : List Str) : Str := List.intercalate ", ".data parts

/-- Python `int(s)` on a string of decimal digits. -/
def natOfDigits (s : Str) : Nat := s.foldl (fun n c => 10 * n + (c.toNat - 48)) 0

/-- Decimal rendering, fuel-indexed (structural recursion so that the kernel
can evaluate it; `fuel = n` always suffices since `n / 10 < n` strictly). -/
def natToCharsAux : Nat → Nat → Str
  | 0, n => [Char.ofNat (48 + n % 10)]
  | fuel + 1, n =>
    if n < 10 then [Char.ofNat (48 + n)]
    else natToCharsAux fuel (n / 10) ++ [Char.ofNat (48 + n % 10)]

/-- Decimal rendering of a natural number (Python f-string interpolation). -/
def natToChars (n : Nat) : Str := natToCharsAux n n

/-- Python `s.isdigit()` for ASCII strings: nonempty and all digits. -/
def pyIsdigit (s : Str) : Bool := !s.isEmpty && s.all Char.isDigit

/-- Python `min(a, b)` on two numbers (returns `b` only when strictly smaller). -/
def pyMin (a b : ℚ) : ℚ := if b < a then b else a

/-- Python `max(a, b)` on two numbers (returns `b` only when strictly larger). -/
def pyMax (a b : ℚ) : ℚ := if a < b then b else a

/-- ASCII `[a-zA-Z0-9]`. -/
def isAlnumChar (c : Char) : Bool := c.isAlpha || c.isDigit

/-- The regex class `[\w-]` (ASCII): alphanumeric, underscore, or dash. -/
def isWordDashChar (c : Char) : Bool := isAlnumChar c || c == '_' || c == '-'

/-! ### safety_checker.py -/

/-- `BLACKLIST_PATTERNS` from `safety_checker.py`. -/
def BLACKLIST_PATTERNS : List Str :=
  [">".data, ">>".data, "<".data, "|".data,
   ";".data, "&&".data, "||".data, "`".data, "$(".data,
   "rm ".data, "chmod ".data, "chown ".data, "dd ".data, "mkfs".data]

/-- `WARNING_SCRIPTS` from `safety_checker.py`. -/
def WARNING_SCRIPTS : List Str :=
  ["exploit".data, "dos".data, "brute".data, "broadcast".data]

/-- `FORBIDDEN_SCRIPTS` from `safety_checker.py`. -/
def FORBIDDEN_SCRIPTS : List Str := ["malware".data]

/-- `validate_safety` from `safety_checker.py`: blacklist patterns on the raw
command, then forbidden scripts on the lowered command. -/
def validate_safety (command : Str) : Bool :=
  if BLACKLIST_PATTERNS.any (fun p => isSubstr p command) then false
  else if isSubstr "--script".data (pyLower command)
          && FORBIDDEN_SCRIPTS.any (fun f => isSubstr f (pyLower command)) then false
  else true

/-- `get_safety_warnings` from `safety_checker.py`, advisory warnings in source order. -/
def get_safety_warnings (command : Str) : List Str :=
  let lower := pyLower command
  (if isSubstr "--script".data lower then
      (WARNING_SCRIPTS.filter (fun sc => isSubstr sc lower)).map
        (fun sc => "Script category '".data ++ sc ++ "' may be aggressive".data)
    else [])
  ++ (if isSubstr "-T4".data command || isSubstr "-T5".data command then
        ["Aggressive timing (-T4/-T5) may be detected".data] else [])
  ++ (if isSubstr "-A".data command then
        ["Aggressive scan (-A) enables OS detection and scripts".data] else [])
  ++ (if isSubstr "-p-".data command || isSubstr "-p 1-65535".data command then
        ["Full port scan will take significant time".data] else [])
  ++ (if isSubstr "-sU".data command then
        ["UDP scan requires root and is slower".data] else [])
  ++ (if isSubstr "-sV".data command then
        ["Version detection increases scan time".data] else [])
  ++ (if isSubstr "-O".data command then
        ["OS detection requires root privileges".data] else [])
  ++ (if isSubstr "--script".data lower && isSubstr "vuln".data lower then
        ["Vulnerability scripts may trigger IDS/IPS".data] else [])

/-- `check_safe_execution` from `safety_checker.py`:
`(is_safe, errors, warnings)`; blocking errors are enumerated (in
`BLACKLIST_PATTERNS` order, then forbidden scripts) only when
`validate_safety` failed. -/
def check_safe_execution (command : Str) : Bool × List Str × List Str :=
  let errors :=
    if validate_safety command then []
    else
      (BLACKLIST_PATTERNS.filter (fun p => isSubstr p command)).map
        (fun p => "Dangerous pattern detected: ".data ++ p)
      ++ (if isSubstr "--script".data (pyLower command) then
            (FORBIDDEN_SCRIPTS.filter (fun f => isSubstr f (pyLower command))).map
              (fun f => "Forbidden script: ".data ++ f)
          else [])
  (errors.isEmpty, errors, get_safety_warnings command)

/-! ### conflict_checker.py -/

/-- `HARDCODED_CONFLICTS['scan_types']` from `conflict_checker.py`,
as an insertion-ordered association list. -/
def scan_type_conflicts : List (Str × List Str) :=
  [("-sS".data, ["-sT".data, "-sA".data, "-sW".data, "-sM".data, "-sU".data, "-sN".data, "-sF".data, "-sX".data]),
   ("-sT".data, ["-sS".data, "-sA".data, "-sW".data, "-sM".data, "-sU".data, "-sN".data, "-sF".data, "-sX".data]),
   ("-sU".data, ["-sS".data, "-sT".data, "-sA".data, "-sW".data, "-sM".data, "-sN".data, "-sF".data, "-sX".data]),
   ("-sN".data, ["-sS".data, "-sT".data, "-sA".data, "-sW".data, "-sM".data, "-sU".data, "-sF".data, "-sX".data]),
   ("-sF".data, ["-sS".data, "-sT".data, "-sA".data, "-sW".data, "-sM".data, "-sU".data, "-sN".data, "-sX".data]),
   ("-sX".data, ["-sS".data, "-sT".data, "-sA".data, "-sW".data, "-sM".data, "-sU".data, "-sN".data, "-sF".data]),
   ("-sA".data, ["-sS".data, "-sT".data, "-sW".data, "-sM".data, "-sU".data, "-sN".data, "-sF".data, "-sX".data]),
   ("-sW".data, ["-sS".data, "-sT".data, "-sA".data, "-sM".data, "-sU".data, "-sN".data, "-sF".data, "-sX".data]),
   ("-sM".data, ["-sS".data, "-sT".data, "-sA".data, "-sW".data, "-sU".data, "-sN".data, "-sF".data, "-sX".data])]

/-- `HARDCODED_CONFLICTS['special']` from `conflict_checker.py`. -/
def special_conflicts : List (Str × List Str) :=
  [("-sn".data, ["-p".data]),
   ("-Pn".data, ["-PS".data, "-PA".data, "-PU".data, "-PE".data, "-PP".data, "-PM".data])]

/-- `ROOT_REQUIRED_FLAGS` from `conflict_checker.py`. -/
def ROOT_REQUIRED_FLAGS : List Str :=
  ["-sS".data, "-sU".data, "-sN".data, "-sF".data, "-sX".data,
   "-sA".data, "-sW".data, "-sM".data, "-O".data, "--traceroute".data]

/-- `extract_flags`, fuel-indexed (structural recursion so that the kernel
can evaluate it; every step consumes at least one character, so
`fuel = s.length` always suffices): `re.findall` of
`-[a-zA-Z0-9]+|--[\w-]+` (first alternative tried first, greedy,
non-overlapping, advancing one character on failure). -/
def extract_flagsAux : Nat → Str → List Str
  | 0, _ => []
  | _ + 1, [] => []
  | fuel + 1, '-' :: rest =>
    match rest with
    | [] => []
    | c :: cs =>
      if isAlnumChar c then
        ('-' :: (c :: cs).takeWhile isAlnumChar)
          :: extract_flagsAux fuel ((c :: cs).dropWhile isAlnumChar)
      else if c == '-' then
        match cs with
        | [] => extract_flagsAux fuel [c]
        | d :: ds =>
          if isWordDashChar d then
            ('-' :: '-' :: (d :: ds).takeWhile isWordDashChar)
              :: extract_flagsAux fuel ((d :: ds).dropWhile isWordDashChar)
          else extract_flagsAux fuel (c :: d :: ds)
      else extract_flagsAux fuel (c :: cs)
  | fuel + 1, _ :: rest => extract_flagsAux fuel rest

/-- `extract_flags` from `conflict_checker.py`. -/
def extract_flags (s : Str) : List Str := extract_flagsAux s.length s

/-- The inner two loops of `validate_conflicts`' fallback branch: walk the
extracted flags in order; for the first flag that is a key of `table`, return
it with the first entry of its row that is present among all extracted flags. -/
def tablePass (table : List (Str × List Str)) : List Str → List Str → Option (Str × Str)
  | [], _ => none
  | f :: rest, flags =>
    match List.lookup f table with
    | some row =>
      match row.find? (fun c => flags.contains c) with
      | some c => some (f, c)
      | none => tablePass table rest flags
    | none => tablePass table rest flags

/-- Message produced by the scan-type conflict loop of `validate_conflicts`. -/
def conflictMsgScan (a b : Str) : Str :=
  "Conflict detected: ".data ++ a ++ " conflicts with ".data ++ b
    ++ " (cannot use multiple scan types)".data

/-- Message produced by the special conflict loop of `validate_conflicts`. -/
def conflictMsgSpecial (a b : Str) : Str :=
  "Conflict detected: ".data ++ a ++ " conflicts with ".data ++ b

/-- The fallback block of `validate_conflicts` (no knowledge graph), acting on
the already-extracted flag list: all scan-type conflicts are checked before
any special conflict. -/
def conflictsFallback (flags : List Str) : Bool × Str :=
  match tablePass scan_type_conflicts flags flags with
  | some (a, b) => (false, conflictMsgScan a b)
  | none =>
    match tablePass special_conflicts flags flags with
    | some (a, b) => (false, conflictMsgSpecial a b)
    | none => (true, "No conflicts detected (using fallback rules)".data)

/-- `validate_conflicts` from `conflict_checker.py` with `kg_client=None` and
the knowledge graph unavailable (fallback rules). -/
def validate_conflicts (command : Str) : Bool × Str :=
  conflictsFallback (extract_flags command)

/-- `check_requires_root` from `conflict_checker.py`, fallback branch. -/
def check_requires_root (command : Str) : Bool × List Str :=
  let found := (extract_flags command).filter (fun f => ROOT_REQUIRED_FLAGS.contains f)
  (!found.isEmpty, found)

/-- `get_all_conflicts` from `conflict_checker.py`, fallback branch (no
knowledge-graph client): scan-type row then special row, concatenated. -/
def get_all_conflicts (flag : Str) : List Str :=
  (match List.lookup flag scan_type_conflicts with
   | some row => row
   | none => [])
  ++ (match List.lookup flag special_conflicts with
      | some row => row
      | none => [])

/-- The keys of the `scan_types` table. -/
def scanTypeKeys : List Str := scan_type_conflicts.map (fun p => p.1)

/-! ### syntax_checker.py -/

/-- `KNOWN_FLAGS` from `syntax_checker.py`. -/
def KNOWN_FLAGS : List Str :=
  ["-sS".data, "-sT".data, "-sU".data, "-sn".data, "-sA".data, "-sW".data,
   "-sN".data, "-sF".data, "-sX".data,
   "-p".data, "-p-".data, "--exclude-ports".data,
   "-sV".data, "-O".data, "-A".data,
   "-T0".data, "-T1".data, "-T2".data, "-T3".data, "-T4".data, "-T5".data,
   "-Pn".data, "-PS".data, "-PA".data, "-PU".data, "-PE".data, "-PP".data, "-PM".data,
   "-oN".data, "-oX".data, "-oG".data, "-oA".data, "-v".data, "-vv".data,
   "-6".data, "-n".data, "-R".data, "--traceroute".data, "--reason".data, "--open".data,
   "--script".data, "--script-args".data]

/-- `known_long_flags` from `_is_long_flag` in `syntax_checker.py`. -/
def known_long_flags : List Str :=
  ["--script".data, "--script-args".data, "--traceroute".data, "--reason".data,
   "--exclude-ports".data, "--port-ratio".data, "--version-intensity".data,
   "--osscan-limit".data, "--max-retries".data, "--host-timeout".data,
   "--open".data, "--version-all".data, "--version-light".data]

/-- Shape of the regex `^(\d{1,3}\.){3}\d{1,3}$`: exactly four dot-separated
groups of one to three digits. -/
def isIpShape (t : Str) : Bool :=
  let ps := splitOnChar '.' t
  ps.length == 4 && ps.all (fun p => 1 ≤ p.length && p.length ≤ 3 && p.all Char.isDigit)

/-- The octet check of `_is_valid_target`'s IP branch. -/
def octetsOk (t : Str) : Bool :=
  (splitOnChar '.' t).all (fun p => natOfDigits p ≤ 255)

/-- A DNS label as accepted by `[a-zA-Z0-9]([a-zA-Z0-9\-]{0,61}[a-zA-Z0-9])?`:
one to 63 characters over alphanumerics and dashes, first and last
alphanumeric. -/
def isLabel (p : Str) : Bool :=
  !p.isEmpty && p.length ≤ 63
    && p.all (fun c => isAlnumChar c || c == '-')
    && isAlnumChar (p.headD ' ') && isAlnumChar (p.reverse.headD ' ')

/-- Shape of the regex `^(\d{1,3}\.){3}\d{1,3}/\d{1,2}$`. -/
def isCidrShape (t : Str) : Bool :=
  let ps := splitOnChar '/' t
  ps.length == 2 && isIpShape (ps.headD [])
    && (let suf := (ps.drop 1).headD []
        1 ≤ suf.length && suf.length ≤ 2 && suf.all Char.isDigit)

/-- `_is_valid_target` from `syntax_checker.py`: IPv4, then CIDR, then dotted
domain, then bare hostname.  In the CIDR branch the source recursively calls
`_is_valid_target(ip_part)`; since the CIDR shape forces `ip_part` to match
the IP regex, that call always lands in the IP branch, so it is inlined here
as `octetsOk`. -/
def is_valid_target (t : Str) : Bool :=
  if isIpShape t then octetsOk t
  else if isCidrShape t then
    let ps := splitOnChar '/' t
    octetsOk (ps.headD []) && natOfDigits ((ps.drop 1).headD []) ≤ 32
  else
    let ps := splitOnChar '.' t
    if ps.length ≥ 2 && ps.dropLast.all isLabel
        && (let tld := ps.reverse.headD []
            2 ≤ tld.length && tld.all Char.isAlpha) then true
    else isLabel t

/-- `_is_long_flag` from `syntax_checker.py`: exact or prefix match against
the known long-flag list. -/
def is_long_flag (flag : Str) : Bool :=
  known_long_flags.contains flag
    || known_long_flags.any (fun k => isPrefixOfChars k flag)

/-- The token loop of the syntax check (step 3): walk the tokens after the
program name; a token starting with `-` is a flag; a non-flag token directly
after a flag token is treated as that flag's argument (except in the very
first position after `nmap`); anything else is a target. -/
def collectTokens : List Str → Option Str → List Str × List Str
  | [], _ => ([], [])
  | t :: ts, prev =>
    let (fs, gs) := collectTokens ts (some t)
    if isPrefixOfChars "-".data t then (t :: fs, gs)
    else
      match prev with
      | some p => if isPrefixOfChars "-".data p then (fs, gs) else (fs, t :: gs)
      | none => (fs, t :: gs)

/-- The per-flag check of the syntax check (step 6), as an optional error
message. -/
def flagError (f : Str) : Option Str :=
  if isPrefixOfChars "--".data f && !is_long_flag f then
    some ("Invalid long flag: ".data ++ f)
  else if isPrefixOfChars "-".data f && !isPrefixOfChars "--".data f
      && f.length > 3 && !pyIsdigit ((f.drop 1).filter (fun c => c != '-')) then
    if !KNOWN_FLAGS.contains (f.take 2) then
      some ("Unknown or malformed flag: ".data ++ f)
    else none
  else none

/-- The syntax check of `syntax_checker.py` (the optional
`nmap --help` step is disabled in the source). -/
def validate_syntax_fn (command : Str) : Bool × Str :=
  let c := pyStrip command
  if !isPrefixOfChars "nmap".data c then
    (false, "Command must start with 'nmap'".data)
  else
    let parts := pySplit c
    if parts.length < 2 then (false, "Command too short - missing target".data)
    else
      let ft := collectTokens (parts.drop 1) none
      if ft.2.isEmpty then (false, "No target specified".data)
      else
        match ft.2.find? (fun t => !is_valid_target t) with
        | some t => (false, "Invalid target format: ".data ++ t)
        | none =>
          match ft.1.findSome? flagError with
          | some msg => (false, msg)
          | none => (true, "Syntax valid".data)

/-! ### validator.py -/

/-- The dict returned by `CommandValidator.full_validation` (the `details`
sub-dict, read by no claim and no embedded consumer, is omitted). -/
structure FullResult where
  is_valid : Bool
  score : ℚ
  feedback : Str
  errors : List Str
  warnings : List Str
deriving DecidableEq

/-- `CommandValidator.full_validation` from `validator.py` with
`kg_client=None` and `use_vm_sim=False` (the defaults used by
`ValidationPipeline` and by the scenarios of the claims): syntax −0.3,
conflict −0.4, safety −0.5 (once, on failure), advisory warnings, root
warning, clamp to [0,1], `is_valid = no errors and score ≥ 0.5`. -/
def full_validation (command : Str) : FullResult :=
  let syn := validate_syntax_fn command
  let conf := validate_conflicts command
  let safe := check_safe_execution command
  let root := check_requires_root command
  let errors :=
    (if syn.1 then [] else ["Syntax: ".data ++ syn.2])
    ++ (if conf.1 then [] else ["Conflict: ".data ++ conf.2])
    ++ (if safe.1 then [] else safe.2.1.map (fun e => "Safety: ".data ++ e))
  let warnings :=
    safe.2.2 ++ (if root.1 then
      ["Requires root privileges for: ".data ++ joinCommaSpace root.2] else [])
  let score0 : ℚ :=
    1 - (if syn.1 then 0 else 3/10) - (if conf.1 then 0 else 2/5)
      - (if safe.1 then 0 else 1/2)
  let score := pyMax 0 (pyMin 1 score0)
  let is_valid := errors.isEmpty && decide ((1 : ℚ)/2 ≤ score)
  let feedback :=
    if is_valid then
      if warnings.isEmpty then "Command is valid and safe".data
      else "Valid command with ".data ++ natToChars warnings.length ++ " warning(s)".data
    else "Command has ".data ++ natToChars errors.length ++ " error(s)".data
  ⟨is_valid, score, feedback, errors, warnings⟩

/-! ### decision.py -/

/-- `calculate_confidence` from `decision.py`: base 0.7, validity/score tiers,
error and warning penalties, retry penalty `min(0.15, (attempts-1)*0.05)`,
complexity adjustment, final clamp to [0,1]. -/
def calculate_confidence (is_valid : Bool) (score : ℚ) (attempts : ℤ)
    (has_errors has_warnings : Bool) (complexity : Str) : ℚ :=
  let c0 : ℚ := 7/10
  let c1 :=
    if is_valid && decide ((9 : ℚ)/10 ≤ score) then c0 + 1/5
    else if is_valid && decide ((7 : ℚ)/10 ≤ score) then c0 + 1/10
    else if is_valid then c0 + 1/20
    else c0 - 1/5
  let c2 := if has_errors then c1 - 1/5 else c1
  let c3 := if has_warnings then c2 - 1/20 else c2
  let c4 := if attempts > 1 then c3 - pyMin (3/20) (((attempts : ℚ) - 1) * (1/20)) else c3
  let c5 := c4 +
    (if complexity = "EASY".data then 1/10
     else if complexity = "MEDIUM".data then 0
     else if complexity = "HARD".data then -(1/10) else 0)
  pyMax 0 (pyMin 1 c5)

/-! ### self_correct.py -/

/-- A validation dict as consumed by `SelfCorrector.loop`, `apply_fixes` and
`make_decision` via `.get(key, default)`: each field is `none` when the key
is absent.  Note that `full_validation` produces a dict whose validity key is
`'is_valid'`, not `'valid'`. -/
structure PyVal where
  valid : Option Bool
  is_valid : Option Bool
  score : Option ℚ
  errors : Option (List Str)
  warnings : Option (List Str)
  feedback : Option Str
deriving DecidableEq

/-- The dict `{"valid": False, "score": 0.0}` used by the loop for failed
generator attempts and for an empty history. -/
def failVal : PyVal := ⟨some false, none, some 0, none, none, none⟩

/-- View of a `full_validation` result as the dict the correction loop reads:
the validity flag lives under key `is_valid`, so the `valid` field is absent. -/
def asLoopDict (r : FullResult) : PyVal :=
  ⟨none, some r.is_valid, some r.score, some r.errors, some r.warnings, some r.feedback⟩

/-- One entry of `SelfCorrector.loop`'s history list. -/
structure AttemptRec where
  attempt : Nat
  command : Option Str
  error : Option Str
  validation : PyVal
deriving DecidableEq

/-- The `best_result` record tracked by `SelfCorrector.loop`. -/
structure BestRec where
  command : Str
  validation : PyVal
  attempt : Nat
deriving DecidableEq

/-- The dict returned by `SelfCorrector.loop`. -/
structure LoopResult where
  command : Option Str
  attempts : Nat
  validation : PyVal
  history : List AttemptRec
  corrected : Bool
deriving DecidableEq

/-- The regex `re.search(r'(-\S+)\s+conflicts with\s+(-\S+)', error)` of
`_fix_conflicts`, matched at the head of the string: a dash followed by a
maximal nonempty run of non-whitespace, whitespace, the literal
`conflicts with`, whitespace, then a second dash-led group. -/
def matchConflictAt (s : Str) : Option (Str × Str) :=
  match s with
  | '-' :: rest =>
    let g1 := rest.takeWhile (fun c => !c.isWhitespace)
    if g1.isEmpty then none
    else
      let r1 := rest.dropWhile (fun c => !c.isWhitespace)
      if (r1.takeWhile Char.isWhitespace).isEmpty then none
      else
        let r2 := r1.dropWhile Char.isWhitespace
        if isPrefixOfChars "conflicts with".data r2 then
          let r3 := r2.drop ("conflicts with".data).length
          if (r3.takeWhile Char.isWhitespace).isEmpty then none
          else
            match r3.dropWhile Char.isWhitespace with
            | '-' :: rest2 =>
              let g2 := rest2.takeWhile (fun c => !c.isWhitespace)
              if g2.isEmpty then none else some ('-' :: g1, '-' :: g2)
            | _ => none
        else none
  | _ => none

/-- `re.search` over the whole string: first position (left to right) where
`matchConflictAt` succeeds. -/
def searchConflictPair : Str → Option (Str × Str)
  | [] => none
  | c :: rest =>
    match matchConflictAt (c :: rest) with
    | some p => some p
    | none => searchConflictPair rest

/-- `SelfCorrector._fix_conflicts`: for each error message, extract the pair
named by the `... conflicts with ...` pattern and remove the first occurrence
of the second flag (or, failing that, of the first) from the split command. -/
def fix_conflicts (command : Str) (errors : List Str) : Str :=
  let parts := errors.foldl
    (fun ps e =>
      match searchConflictPair e with
      | some (f1, f2) =>
        if ps.contains f2 then ps.erase f2
        else if ps.contains f1 && f1 != f2 then ps.erase f1
        else ps
      | none => ps)
    (pySplit command)
  joinSpace parts

/-- `SelfCorrector._fix_syntax` (its `errors` argument is unused in the
source): prepend `nmap` if missing, append a default target if too short. -/
def fix_syntax (command : Str) : Str :=
  let parts := pySplit command
  let parts := if parts.headD [] ≠ "nmap".data then "nmap".data :: parts else parts
  let parts := if parts.length < 2 then parts ++ ["127.0.0.1".data] else parts
  joinSpace parts

/-- Characters of the regex class `[>|<]`. -/
def isRedirChar (c : Char) : Bool := c == '>' || c == '|' || c == '<'

/-- Characters of the regex class `[;&|]`. -/
def isChainChar (c : Char) : Bool := c == ';' || c == '&' || c == '|'

/-- `re.sub(r'\s*[>|<]+\s*\S*', '', command)`: delete every leftmost match of
optional whitespace, a run of redirection characters, optional whitespace and
an optional non-whitespace run.  Fuel-indexed: every step consumes at least
one character, so `fuel = s.length` always suffices. -/
def subRedirAux : Nat → Str → Str
  | 0, s => s
  | _ + 1, [] => []
  | fuel + 1, c :: cs =>
    match (c :: cs).dropWhile Char.isWhitespace with
    | d :: ds =>
      if isRedirChar d then
        subRedirAux fuel (((ds.dropWhile isRedirChar).dropWhile Char.isWhitespace).dropWhile
          (fun x => !x.isWhitespace))
      else c :: subRedirAux fuel cs
    | [] => c :: subRedirAux fuel cs

/-- The first substitution of `_fix_safety`. -/
def subRedir (s : Str) : Str := subRedirAux s.length s

/-- `re.sub(r'\s*[;&|]+.*$', '', command)`: everything from the leftmost
chaining operator (with its leading whitespace) to the end is deleted. -/
def subChain : Str → Str
  | [] => []
  | c :: cs =>
    match (c :: cs).dropWhile Char.isWhitespace with
    | d :: _ => if isChainChar d then [] else c :: subChain cs
    | [] => c :: subChain cs

/-- `re.sub(r'\$\([^)]*\)', '', command)`: delete every `$( ... )` group
(no match when the closing parenthesis is missing).  Fuel-indexed: every
step consumes at least one character, so `fuel = s.length` always suffices. -/
def subDollarAux : Nat → Str → Str
  | 0, s => s
  | _ + 1, [] => []
  | fuel + 1, '$' :: '(' :: rest =>
    (match rest.dropWhile (fun c => c != ')') with
     | _ :: after => subDollarAux fuel after
     | [] => '$' :: subDollarAux fuel ('(' :: rest))
  | fuel + 1, c :: cs => c :: subDollarAux fuel cs

/-- The third substitution of `_fix_safety`. -/
def subDollar (s : Str) : Str := subDollarAux s.length s

/-- The backtick character, written without a backtick literal. -/
def backtickChar : Char := "`".data.headD ' '

/-- The backtick substitution of `_fix_safety`: delete every
backtick-delimited group (no match when the closing backtick is missing).
Fuel-indexed: every step consumes at least one character, so
`fuel = s.length` always suffices. -/
def subBacktickAux : Nat → Str → Str
  | 0, s => s
  | _ + 1, [] => []
  | fuel + 1, c :: cs =>
    if c == backtickChar then
      (match cs.dropWhile (fun x => x != backtickChar) with
       | _ :: after => subBacktickAux fuel after
       | [] => c :: subBacktickAux fuel cs)
    else c :: subBacktickAux fuel cs

/-- The fourth substitution of `_fix_safety`. -/
def subBacktick (s : Str) : Str := subBacktickAux s.length s

/-- `SelfCorrector._fix_safety`: the four substitutions in source order,
then `strip()`. -/
def fix_safety (command : Str) : Str :=
  pyStrip (subBacktick (subDollar (subChain (subRedir command))))

/-- `SelfCorrector.apply_fixes`: dispatch on the kinds mentioned in the error
messages (the lowered `feedback` string is computed but never used in the
source). -/
def apply_fixes (command : Str) (v : PyVal) : Str :=
  if command.isEmpty then command
  else
    let errors := v.errors.getD []
    let c1 := if errors.any (fun e => isSubstr "conflict".data (pyLower e)) then
        fix_conflicts command errors else command
    let c2 := if errors.any (fun e => isSubstr "syntax".data (pyLower e)) then
        fix_syntax c1 else c1
    if errors.any (fun e =>
        isSubstr "safety".data (pyLower e) || isSubstr "dangerous".data (pyLower e)) then
      fix_safety c2
    else c2

/-- The acceptance test of `SelfCorrector.loop`:
`validation.get('valid', False) and current_score >= 0.8`. -/
def earlyAccept (v : PyVal) : Bool :=
  v.valid.getD false && decide ((4 : ℚ)/5 ≤ v.score.getD 0)

/-- The two exhausted-path returns of `SelfCorrector.loop` (after the `for`
loop): best attempt if one was recorded, else the last history entry, always
with `attempts = max_retries`. -/
def loopFinish (mr : Nat) (h : List AttemptRec) (best : Option BestRec) : LoopResult :=
  match best with
  | some b => ⟨some b.command, mr, b.validation, h, decide (1 < b.attempt)⟩
  | none =>
    match h.getLast? with
    | some e => ⟨e.command, mr, e.validation, h, false⟩
    | none => ⟨some [], mr, failVal, h, false⟩

/-- The `for attempt in range(max_retries)` loop of `SelfCorrector.loop`.
`fuel` is the number of iterations left and `a` the 0-based loop variable
(`a + fuel = mr` at the top-level call).  The generator is modelled as a
function of the 0-based attempt index, `.error` modelling a raised
exception.  Note that `apply_fixes`' output is only compared against the
current command (the `break` test); it is never fed back to anything. -/
def loopGo (mr : Nat) (gen : Nat → Except Str Str) (val : Str → PyVal) :
    Nat → Nat → List AttemptRec → Option BestRec → ℚ → LoopResult
  | 0, _, h, best, _ => loopFinish mr h best
  | fuel + 1, a, h, best, bs =>
    match gen a with
    | .error msg =>
      loopGo mr gen val fuel (a + 1) (h ++ [⟨a + 1, none, some msg, failVal⟩]) best bs
    | .ok command =>
      let v := val command
      let h' := h ++ [⟨a + 1, some command, none, v⟩]
      let cs := v.score.getD 0
      let best' := if bs < cs then some ⟨command, v, a + 1⟩ else best
      let bs' := if bs < cs then cs else bs
      if earlyAccept v then
        ⟨some command, a + 1, v, h', decide (0 < a)⟩
      else if a < mr - 1 then
        if apply_fixes command v = command then loopFinish mr h' best'
        else loopGo mr gen val fuel (a + 1) h' best' bs'
      else loopGo mr gen val fuel (a + 1) h' best' bs'

/-- `SelfCorrector.loop` with `max_retries = mr` (intent and complexity only
parameterize the generator callback, which is abstracted here). -/
def selfCorrectorLoop (mr : Nat) (gen : Nat → Except Str Str)
    (val : Str → PyVal) : LoopResult :=
  loopGo mr gen val mr 0 [] none 0

/-- The validator callback wired up by `ValidationPipeline.process`:
`CommandValidator.full_validation`, seen through dict accesses. -/
def orchestratorVal (command : Str) : PyVal := asLoopDict (full_validation command)

/-! ### Concrete scenario inputs -/

/-- A generator callback that always returns the conflicting command of the
spec's correction scenario. -/
def genAlwaysConflicting : Nat → Except Str Str :=
  fun _ => .ok "nmap -sS -sT 192.168.1.1".data

/-- A generator callback that always returns a command `full_validation`
accepts with score 1. -/
def genAlwaysValid : Nat → Except Str Str :=
  fun _ => .ok "nmap 192.168.1.1".data

/-! ### Helper lemmas -/

/-- Both exhausted-path returns of the loop report `attempts = max_retries`. -/
theorem loopFinish_attempts (mr : Nat) (h : List AttemptRec) (best : Option BestRec) :
    (loopFinish mr h best).attempts = mr := by
  cases best with
  | some b => rfl
  | none => cases hgl : h.getLast? <;> simp [loopFinish, hgl]

/-- `loopFinish` returns the history it is given. -/
theorem loopFinish_history (mr : Nat) (h : List AttemptRec) (best : Option BestRec) :
    (loopFinish mr h best).history = h := by
  cases best with
  | some b => rfl
  | none => cases hgl : h.getLast? <;> simp [loopFinish, hgl]

/-- The clamp `max(0.0, min(1.0, x))` lands in the unit interval. -/
theorem pyClamp_mem (x : ℚ) : 0 ≤ pyMax 0 (pyMin 1 x) ∧ pyMax 0 (pyMin 1 x) ≤ 1 := by
  unfold pyMax pyMin
  split_ifs <;> constructor <;> linarith

/-! ### Claim theorems -/

/-- **C1** (code bug): in the correction run whose generator always returns
`"nmap -sS -sT 192.168.1.1"` and whose validator is the orchestrator's
`full_validation`, the loop never returns a repaired valid command: the
fix step does compute the repaired `"nmap -sS 192.168.1.1"`, but the loop
discards it (the next iteration calls the generator again), so the run
exhausts all three retries and returns the original invalid command with
`corrected = false` — not a valid command with `corrected = true` within
two attempts as the claim states. -/
theorem conflicting_generator_run_never_repaired :
    (full_validation "nmap -sS -sT 192.168.1.1".data).is_valid = false
    ∧ apply_fixes "nmap -sS -sT 192.168.1.1".data
        (orchestratorVal "nmap -sS -sT 192.168.1.1".data) = "nmap -sS 192.168.1.1".data
    ∧ (selfCorrectorLoop 3 genAlwaysConflicting orchestratorVal).command
        = some "nmap -sS -sT 192.168.1.1".data
    ∧ (selfCorrectorLoop 3 genAlwaysConflicting orchestratorVal).attempts = 3
    ∧ (selfCorrectorLoop 3 genAlwaysConflicting orchestratorVal).corrected = false
    ∧ (selfCorrectorLoop 3 genAlwaysConflicting orchestratorVal).validation.is_valid
        = some false := by
  with_unfolding_all decide

/-- **C2** (code bug): `full_validation` stores validity under the key
`is_valid` while the loop's acceptance test reads the key `valid`, so even
for a command validated as `is_valid = true` with score `1 ≥ 0.8` on the
first attempt, the documented early exit never fires: the loop leaves via
the unchanged-fix break and reports `attempts = 3` (with a single history
entry) instead of returning immediately with `attempts = 1`. -/
theorem earlyAccept_never_fires_with_orchestrator :
    (full_validation "nmap 192.168.1.1".data).is_valid = true
    ∧ (4 : ℚ)/5 ≤ (full_validation "nmap 192.168.1.1".data).score
    ∧ (orchestratorVal "nmap 192.168.1.1".data).valid = none
    ∧ earlyAccept (orchestratorVal "nmap 192.168.1.1".data) = false
    ∧ (selfCorrectorLoop 3 genAlwaysValid orchestratorVal).attempts = 3
    ∧ (selfCorrectorLoop 3 genAlwaysValid orchestratorVal).history.length = 1 := by
  with_unfolding_all decide

/-- **C10** (confirmed): every return through the non-early-exit path
(`loopFinish`) reports `attempts = max_retries` regardless of how many
iterations ran; concretely, a run that breaks after a single attempt still
reports `attempts = 3` while its history has one entry, so `attempts`
exceeds the history length. -/
theorem exhausted_path_attempts_eq_max_retries :
    (∀ (mr : Nat) (h : List AttemptRec) (best : Option BestRec),
        (loopFinish mr h best).attempts = mr)
    ∧ (selfCorrectorLoop 3 genAlwaysValid orchestratorVal).attempts = 3
    ∧ (selfCorrectorLoop 3 genAlwaysValid orchestratorVal).history.length = 1 := by
  refine ⟨loopFinish_attempts, ?_, ?_⟩ <;> with_unfolding_all decide

/-- **C3** (counterexample): the embedded fallback conflict table is not
symmetric: `-p` is in the fallback conflict set of `-sn`, but `-sn` is not
in the fallback conflict set of `-p` (which is empty). -/
theorem special_conflicts_asymmetric_cex :
    "-p".data ∈ get_all_conflicts "-sn".data
    ∧ "-sn".data ∉ get_all_conflicts "-p".data := by
  decide

/-- **C3** (amended): symmetry does hold on the scan-type portion of the
fallback table: for flags `a`, `b` that are both keys of the `scan_types`
table, `b ∈ get_all_conflicts a ↔ a ∈ get_all_conflicts b`; the `special`
entries (`-sn` vs `-p`, `-Pn` vs the ping-type flags) are one-directional. -/
theorem scan_type_conflicts_symmetric (a b : Str)
    (ha : a ∈ scanTypeKeys) (hb : b ∈ scanTypeKeys) :
    b ∈ get_all_conflicts a ↔ a ∈ get_all_conflicts b := by
  simp only [scanTypeKeys, scan_type_conflicts, List.map_cons, List.map_nil] at ha hb
  fin_cases ha <;> fin_cases hb <;> decide

/-- Witness for `scan_type_conflicts_symmetric` at `-sS`, `-sT`. -/
theorem scan_type_conflicts_symmetric_witness :
    ("-sS".data ∈ scanTypeKeys ∧ "-sT".data ∈ scanTypeKeys)
    ∧ ("-sT".data ∈ get_all_conflicts "-sS".data
        ↔ "-sS".data ∈ get_all_conflicts "-sT".data) :=
  ⟨⟨by decide, by decide⟩, scan_type_conflicts_symmetric _ _ (by decide) (by decide)⟩

/-- **C4** (counterexample): `"nmap -p >|< 192.168.1.1"` has three blocking
safety findings, yet its final score is 1/2, not the ≤ 0 that a −0.5-per-
finding deduction would force; the orchestrator deducts 0.5 once. -/
theorem safety_deduction_cex :
    (check_safe_execution "nmap -p >|< 192.168.1.1".data).2.1.length = 3
    ∧ (full_validation "nmap -p >|< 192.168.1.1".data).score = 1/2
    ∧ ¬ (full_validation "nmap -p >|< 192.168.1.1".data).score ≤ 0 := by
  with_unfolding_all decide

/-- **C4** (amended): whenever the safety check fails (n ≥ 1 blocking
findings), `full_validation` subtracts 0.5 exactly once — the final score is
the clamp of `1 − 0.3·[syntax failed] − 0.4·[conflict failed] − 0.5` — while
it does add one prefixed Error per blocking finding. -/
theorem safety_penalty_once (command : Str)
    (hsafe : (check_safe_execution command).1 = false) :
    (full_validation command).score =
      pyMax 0 (pyMin 1 (1 - (if (validate_syntax_fn command).1 then 0 else 3/10)
        - (if (validate_conflicts command).1 then 0 else 2/5) - 1/2))
    ∧ (full_validation command).errors =
      (if (validate_syntax_fn command).1 then []
        else ["Syntax: ".data ++ (validate_syntax_fn command).2])
      ++ (if (validate_conflicts command).1 then []
        else ["Conflict: ".data ++ (validate_conflicts command).2])
      ++ (check_safe_execution command).2.1.map (fun e => "Safety: ".data ++ e) := by
  simp [full_validation, hsafe]

/-- Witness for `safety_penalty_once` at `"nmap 192.168.1.1 && echo hi"`. -/
theorem safety_penalty_once_witness :
    (check_safe_execution "nmap 192.168.1.1 && echo hi".data).1 = false
    ∧ ((full_validation "nmap 192.168.1.1 && echo hi".data).score =
        pyMax 0 (pyMin 1 (1
          - (if (validate_syntax_fn "nmap 192.168.1.1 && echo hi".data).1 then 0 else 3/10)
          - (if (validate_conflicts "nmap 192.168.1.1 && echo hi".data).1 then 0 else 2/5)
          - 1/2))
      ∧ (full_validation "nmap 192.168.1.1 && echo hi".data).errors =
        (if (validate_syntax_fn "nmap 192.168.1.1 && echo hi".data).1 then []
          else ["Syntax: ".data ++ (validate_syntax_fn "nmap 192.168.1.1 && echo hi".data).2])
        ++ (if (validate_conflicts "nmap 192.168.1.1 && echo hi".data).1 then []
          else ["Conflict: ".data ++ (validate_conflicts "nmap 192.168.1.1 && echo hi".data).2])
        ++ (check_safe_execution "nmap 192.168.1.1 && echo hi".data).2.1.map
            (fun e => "Safety: ".data ++ e)) :=
  ⟨by with_unfolding_all decide, safety_penalty_once _ (by with_unfolding_all decide)⟩

/-- **C5** (confirmed): any command containing `>`, `|`, `;`, `&&`, a
backtick, or `$(` anywhere is rejected by `validate_safety`, whatever the
surrounding content. -/
theorem validate_safety_rejects_blacklisted (command : Str)
    (h : isSubstr ">".data command = true ∨ isSubstr "|".data command = true
      ∨ isSubstr ";".data command = true ∨ isSubstr "&&".data command = true
      ∨ isSubstr "`".data command = true ∨ isSubstr "$(".data command = true) :
    validate_safety command = false := by
  have hany : BLACKLIST_PATTERNS.any (fun p => isSubstr p command) = true := by
    refine List.any_eq_true.mpr ?_
    rcases h with h | h | h | h | h | h
    exacts [⟨">".data, by decide, h⟩, ⟨"|".data, by decide, h⟩, ⟨";".data, by decide, h⟩,
      ⟨"&&".data, by decide, h⟩, ⟨"`".data, by decide, h⟩, ⟨"$(".data, by decide, h⟩]
  simp [validate_safety, hany]

/-- Witness for `validate_safety_rejects_blacklisted` at a redirection. -/
theorem validate_safety_rejects_blacklisted_witness :
    isSubstr ">".data "nmap 192.168.1.1 > out.txt".data = true
    ∧ validate_safety "nmap 192.168.1.1 > out.txt".data = false :=
  ⟨by decide, validate_safety_rejects_blacklisted _ (Or.inl (by decide))⟩

/-- **C6** (counterexample): `full_validation "nmap -sS -sT 192.168.1.1"` is
invalid but does not produce exactly one Error finding. -/
theorem conflict_scenario_error_count_cex :
    (full_validation "nmap -sS -sT 192.168.1.1".data).is_valid = false
    ∧ ¬ (full_validation "nmap -sS -sT 192.168.1.1".data).errors.length = 1 := by
  with_unfolding_all decide

/-- **C6** (amended): `full_validation "nmap -sS -sT 192.168.1.1"` returns
`is_valid = false` with exactly two Errors: a syntax Error (`No target
specified`, because the target token after the flag `-sT` is consumed as a
flag argument) and one conflict Error whose message mentions both `-sS` and
`-sT`. -/
theorem conflict_scenario_two_errors :
    (full_validation "nmap -sS -sT 192.168.1.1".data).is_valid = false
    ∧ (full_validation "nmap -sS -sT 192.168.1.1".data).errors =
        ["Syntax: No target specified".data,
         "Conflict: Conflict detected: -sS conflicts with -sT (cannot use multiple scan types)".data]
    ∧ isSubstr "-sS".data
        ((full_validation "nmap -sS -sT 192.168.1.1".data).errors.getD 1 []) = true
    ∧ isSubstr "-sT".data
        ((full_validation "nmap -sS -sT 192.168.1.1".data).errors.getD 1 []) = true := by
  with_unfolding_all decide

/-- Whether extracted flag `f` has some conflict partner (per `table`)
present among `flags` — the condition under which `validate_conflicts`'
inner loop fires for `f`. -/
def rowHit (table : List (Str × List Str)) (f : Str) (flags : List Str) : Bool :=
  match List.lookup f table with
  | some row => row.any (fun c => flags.contains c)
  | none => false

/-- A successful `find?` splits its list at the first satisfying element. -/
theorem find?_decomp {α : Type} (p : α → Bool) :
    ∀ (l : List α) (b : α), l.find? p = some b →
      ∃ l₁ l₂, l = l₁ ++ b :: l₂ ∧ (∀ x ∈ l₁, p x = false) ∧ p b = true := by
  intro l
  induction l with
  | nil => intro b h; simp at h
  | cons a l ih =>
    intro b h
    by_cases hpa : p a = true
    · rw [List.find?_cons_of_pos _ hpa] at h
      cases h
      exact ⟨[], l, rfl, by simp, hpa⟩
    · rw [List.find?_cons_of_neg _ (by simpa using hpa)] at h
      obtain ⟨l₁, l₂, rfl, hall, hb⟩ := ih b h
      refine ⟨a :: l₁, l₂, rfl, ?_, hb⟩
      intro x hx
      rcases List.mem_cons.mp hx with rfl | hx
      · simpa using hpa
      · exact hall x hx

/-- A successful table pass names the first flag (in list order) whose row
hits, paired with the first row entry present among the flags. -/
theorem tablePass_some_spec (table : List (Str × List Str)) :
    ∀ (rest flags : List Str) (a b : Str),
      tablePass table rest flags = some (a, b) →
      ∃ l₁ l₂, rest = l₁ ++ a :: l₂
        ∧ (∀ g ∈ l₁, rowHit table g flags = false)
        ∧ (∃ row r₁ r₂, List.lookup a table = some row ∧ row = r₁ ++ b :: r₂
            ∧ (∀ x ∈ r₁, flags.contains x = false) ∧ flags.contains b = true) := by
  intro rest
  induction rest with
  | nil => intro flags a b h; simp [tablePass] at h
  | cons f rest ih =>
    intro flags a b h
    cases hlk : List.lookup f table with
    | none =>
      simp only [tablePass, hlk] at h
      obtain ⟨l₁, l₂, rfl, hfst, hrow⟩ := ih flags a b h
      refine ⟨f :: l₁, l₂, rfl, ?_, hrow⟩
      intro g hg
      rcases List.mem_cons.mp hg with rfl | hg
      · simp [rowHit, hlk]
      · exact hfst g hg
    | some row =>
      cases hfd : row.find? (fun c => flags.contains c) with
      | none =>
        simp only [tablePass, hlk, hfd] at h
        obtain ⟨l₁, l₂, rfl, hfst, hrow⟩ := ih flags a b h
        refine ⟨f :: l₁, l₂, rfl, ?_, hrow⟩
        intro g hg
        rcases List.mem_cons.mp hg with rfl | hg
        · simp only [rowHit, hlk]
          refine List.any_eq_false.mpr ?_
          intro x hx
          simpa using List.find?_eq_none.mp hfd x hx
        · exact hfst g hg
      | some c =>
        simp only [tablePass, hlk, hfd, Option.some.injEq, Prod.mk.injEq] at h
        obtain ⟨rfl, rfl⟩ := h
        obtain ⟨r₁, r₂, hrw, hr₁, hc⟩ := find?_decomp _ row c hfd
        exact ⟨[], rest, rfl, by simp, row, r₁, r₂, hlk, hrw, hr₁, hc⟩

/-- A failed table pass means no flag's row hits. -/
theorem tablePass_none_spec (table : List (Str × List Str)) :
    ∀ (rest flags : List Str),
      tablePass table rest flags = none → ∀ g ∈ rest, rowHit table g flags = false := by
  intro rest
  induction rest with
  | nil => intro flags _ g hg; simp at hg
  | cons f rest ih =>
    intro flags h g hg
    cases hlk : List.lookup f table with
    | none =>
      simp only [tablePass, hlk] at h
      rcases List.mem_cons.mp hg with rfl | hg
      · simp [rowHit, hlk]
      · exact ih flags h g hg
    | some row =>
      cases hfd : row.find? (fun c => flags.contains c) with
      | none =>
        simp only [tablePass, hlk, hfd] at h
        rcases List.mem_cons.mp hg with rfl | hg
        · simp only [rowHit, hlk]
          refine List.any_eq_false.mpr ?_
          intro x hx
          simpa using List.find?_eq_none.mp hfd x hx
        · exact ih flags h g hg
      | some c =>
        simp only [tablePass, hlk, hfd] at h
        exact Option.noConfusion h

/-- **C7** (amended): the fallback conflict check reports the first conflict
in flag order *within each table pass*, with the scan-type pass always taking
precedence: if the scan-type pass hits, the reported pair is the earliest
flag (in extraction order) whose scan-type row has a partner present,
together with the first such partner in its row's order — even when a
special-table conflict occurs earlier in extraction order; only when no
scan-type row hits at all is the first special-table conflict reported. -/
theorem conflict_report_table_order (flags : List Str) (a b : Str) :
    (tablePass scan_type_conflicts flags flags = some (a, b) →
      conflictsFallback flags = (false, conflictMsgScan a b)
      ∧ ∃ l₁ l₂, flags = l₁ ++ a :: l₂
          ∧ (∀ g ∈ l₁, rowHit scan_type_conflicts g flags = false)
          ∧ ∃ row r₁ r₂, List.lookup a scan_type_conflicts = some row
              ∧ row = r₁ ++ b :: r₂
              ∧ (∀ x ∈ r₁, flags.contains x = false) ∧ flags.contains b = true)
    ∧ (tablePass scan_type_conflicts flags flags = none →
        tablePass special_conflicts flags flags = some (a, b) →
      conflictsFallback flags = (false, conflictMsgSpecial a b)
      ∧ (∀ g ∈ flags, rowHit scan_type_conflicts g flags = false)
      ∧ ∃ l₁ l₂, flags = l₁ ++ a :: l₂
          ∧ (∀ g ∈ l₁, rowHit special_conflicts g flags = false)) := by
  constructor
  · intro h
    refine ⟨by simp [conflictsFallback, h], ?_⟩
    exact tablePass_some_spec _ _ _ _ _ h
  · intro h1 h2
    refine ⟨by simp [conflictsFallback, h1, h2], tablePass_none_spec _ _ _ h1, ?_⟩
    obtain ⟨l₁, l₂, hdec, hfst, _⟩ := tablePass_some_spec _ _ _ _ _ h2
    exact ⟨l₁, l₂, hdec, hfst⟩

/-- Witness for `conflict_report_table_order` at the flags of
`"nmap -sS -sT 192.168.1.1"`. -/
theorem conflict_report_table_order_witness :
    tablePass scan_type_conflicts ["-sS".data, "-sT".data] ["-sS".data, "-sT".data]
        = some ("-sS".data, "-sT".data)
    ∧ (conflictsFallback ["-sS".data, "-sT".data]
        = (false, conflictMsgScan "-sS".data "-sT".data)
      ∧ ∃ l₁ l₂, ["-sS".data, "-sT".data] = l₁ ++ "-sS".data :: l₂
          ∧ (∀ g ∈ l₁, rowHit scan_type_conflicts g ["-sS".data, "-sT".data] = false)
          ∧ ∃ row r₁ r₂, List.lookup "-sS".data scan_type_conflicts = some row
              ∧ row = r₁ ++ "-sT".data :: r₂
              ∧ (∀ x ∈ r₁, (["-sS".data, "-sT".data] : List Str).contains x = false)
              ∧ (["-sS".data, "-sT".data] : List Str).contains "-sT".data = true) :=
  ⟨by decide, (conflict_report_table_order _ _ _).1 (by decide)⟩

/-- **C7** (counterexample): in `"nmap -Pn -PS -sS -sT 192.168.1.1"` the
earliest extracted flag with a conflict partner present is `-Pn` (its
fallback set contains `-PS`, which is present), yet the reported conflict is
`-sS conflicts with -sT`, and the message does not mention `-Pn` at all —
scan-type conflicts preempt extraction order. -/
theorem conflict_report_not_extraction_order_cex :
    extract_flags "nmap -Pn -PS -sS -sT 192.168.1.1".data
      = ["-Pn".data, "-PS".data, "-sS".data, "-sT".data]
    ∧ "-PS".data ∈ get_all_conflicts "-Pn".data
    ∧ (validate_conflicts "nmap -Pn -PS -sS -sT 192.168.1.1".data).2
        = conflictMsgScan "-sS".data "-sT".data
    ∧ isSubstr "-Pn".data
        (validate_conflicts "nmap -Pn -PS -sS -sT 192.168.1.1".data).2 = false := by
  decide

/-- `loopGo` never reports more attempts than `max (mr) (a + fuel)`. -/
theorem loopGo_attempts_le (mr : Nat) (gen : Nat → Except Str Str) (val : Str → PyVal) :
    ∀ (fuel a : Nat) (h : List AttemptRec) (best : Option BestRec) (bs : ℚ),
      (loopGo mr gen val fuel a h best bs).attempts ≤ max mr (a + fuel) := by
  intro fuel
  induction fuel with
  | zero =>
    intro a h best bs
    simpa [loopGo, loopFinish_attempts] using le_max_left mr (a + 0)
  | succ fuel ih =>
    intro a h best bs
    rw [loopGo]
    cases gen a with
    | error msg =>
      exact le_trans (ih (a + 1) _ best bs) (by omega)
    | ok command =>
      simp only
      split
      · simp only [LoopResult.attempts]
        omega
      · split
        · split
          · simp only [loopFinish_attempts]
            exact le_max_left _ _
          · exact le_trans (ih (a + 1) _ _ _) (by omega)
        · exact le_trans (ih (a + 1) _ _ _) (by omega)

/-- `loopGo` appends at most one history entry per unit of fuel. -/
theorem loopGo_history_le (mr : Nat) (gen : Nat → Except Str Str) (val : Str → PyVal) :
    ∀ (fuel a : Nat) (h : List AttemptRec) (best : Option BestRec) (bs : ℚ),
      (loopGo mr gen val fuel a h best bs).history.length ≤ h.length + fuel := by
  intro fuel
  induction fuel with
  | zero =>
    intro a h best bs
    simp [loopGo, loopFinish_history]
  | succ fuel ih =>
    intro a h best bs
    rw [loopGo]
    cases gen a with
    | error msg =>
      exact le_trans (ih (a + 1) _ best bs)
        (by simp only [List.length_append, List.length_cons, List.length_nil]; omega)
    | ok command =>
      simp only
      split
      · simp only [LoopResult.history, List.length_append, List.length_cons,
          List.length_nil]
        omega
      · split
        · split
          · simp only [loopFinish_history, List.length_append, List.length_cons,
              List.length_nil]
            omega
          · exact le_trans (ih (a + 1) _ _ _)
              (by simp only [List.length_append, List.length_cons, List.length_nil]; omega)
        · exact le_trans (ih (a + 1) _ _ _)
            (by simp only [List.length_append, List.length_cons, List.length_nil]; omega)

/-- **C8** (confirmed): for every `max_retries`, generator and validator, the
loop runs at most `max_retries` generation iterations (each iteration appends
exactly one history entry), the returned `attempts` never exceeds
`max_retries`, and whenever an iteration's fix step returns the current
command byte-identical (and the early accept did not fire, with retries still
remaining), the loop stops immediately — it returns through `loopFinish` on
the history so far, for any amount of remaining fuel. -/
theorem selfCorrector_bounded (mr : Nat) (gen : Nat → Except Str Str)
    (val : Str → PyVal) :
    (selfCorrectorLoop mr gen val).attempts ≤ mr
    ∧ (selfCorrectorLoop mr gen val).history.length ≤ mr
    ∧ (∀ (fuel a : Nat) (h : List AttemptRec) (best : Option BestRec) (bs : ℚ)
        (command : Str),
        gen a = .ok command →
        earlyAccept (val command) = false →
        apply_fixes command (val command) = command →
        a < mr - 1 →
        loopGo mr gen val (fuel + 1) a h best bs =
          loopFinish mr (h ++ [⟨a + 1, some command, none, val command⟩])
            (if bs < (val command).score.getD 0
             then some ⟨command, val command, a + 1⟩ else best)) := by
  refine ⟨?_, ?_, ?_⟩
  · have := loopGo_attempts_le mr gen val mr 0 [] none 0
    simpa [selfCorrectorLoop] using this
  · have := loopGo_history_le mr gen val mr 0 [] none 0
    simpa [selfCorrectorLoop] using this
  · intro fuel a h best bs command hg he hf hlt
    rw [loopGo, hg]
    simp only [he, Bool.false_eq_true, if_false, if_pos hlt, if_pos hf]

/-- Witness for `selfCorrector_bounded`: the always-valid generator run stops
after one iteration (unchanged fix) no matter how much fuel remains. -/
theorem selfCorrector_bounded_witness :
    (selfCorrectorLoop 3 genAlwaysValid orchestratorVal).attempts ≤ 3
    ∧ loopGo 3 genAlwaysValid orchestratorVal 6 0 [] none 0 =
        loopFinish 3
          [⟨1, some "nmap 192.168.1.1".data, none, orchestratorVal "nmap 192.168.1.1".data⟩]
          (if (0 : ℚ) < (orchestratorVal "nmap 192.168.1.1".data).score.getD 0
           then some ⟨"nmap 192.168.1.1".data, orchestratorVal "nmap 192.168.1.1".data, 1⟩
           else none) := by
  have H := selfCorrector_bounded 3 genAlwaysValid orchestratorVal
  refine ⟨H.1, ?_⟩
  have h3 := H.2.2 5 0 [] none 0 "nmap 192.168.1.1".data rfl
    (by with_unfolding_all decide) (by with_unfolding_all decide) (by decide)
  simpa using h3

/-- **C9** (confirmed): for every combination of inputs — validity flag,
score, attempts count (any integer), error/warning presence, complexity
string — the confidence returned by `calculate_confidence` lies in [0, 1]. -/
theorem calculate_confidence_in_unit_interval (is_valid : Bool) (score : ℚ)
    (attempts : ℤ) (has_errors has_warnings : Bool) (complexity : Str) :
    0 ≤ calculate_confidence is_valid score attempts has_errors has_warnings complexity
    ∧ calculate_confidence is_valid score attempts has_errors has_warnings complexity ≤ 1 := by
  simp only [calculate_confidence]
  exact pyClamp_mem _
